import Mathlib

/-!
A shallow embedding of `forward.go` from the `sshtun` repository
(function `(tun *SSHTun).forward`, together with the `TunneledConnState`
value it emits to the observer callback), and theorems checking the
specification's claims about it.

Conventions of the embedding:

* Go `error` values are modelled as `Option String` (`none` = `nil`);
  `fmt.Errorf` wrapping with `%w` is modelled as string concatenation of
  the format prefix with the wrapped error's text.
* The outcome of each `io.Copy` call is an input of the model
  (`none` = clean end-of-stream, `some e` = an io error `e`), since the
  byte streams themselves are external.
* The two goroutines launched with `errGroup.Go` both assign the single
  captured variable `err` (`_, err = io.Copy(...)`) and then read it in
  their `if err != nil` check.  The embedding makes this shared slot and
  its access order explicit: each goroutine performs a `write` event
  (the assignment on `io.Copy`'s return) followed later by a `read`
  event (the nil check; the value observed there is also the one wrapped
  and returned).  A schedule is an interleaving of the two goroutines'
  `write`/`read` pairs; `errgroup.Wait` returns the first non-nil error
  in completion (read-event) order, which is how `golang.org/x/sync/errgroup`
  retains errors.
* `Close()` on a connection is modelled as returning `nil` and bumping a
  close counter, following the spec's idempotent-close contract.
-/

namespace Sshtun

/-- Modelled from the spec and the uses in `forward.go`: `ForwardType` is
declared outside the provided source as an integer type with constants
`Local` and `Remote`; `forward` only ever compares it with `==` against
those two constants, so every other value of the underlying integer type
behaves uniformly and is modelled by the single extra case `other`. -/
inductive ForwardType where
  | Local
  | Remote
  | other
deriving DecidableEq, Repr

/-- Modelled from the spec: an endpoint is a value with a transport kind
(Go method `Type()`) and an address string (Go method `String()`). -/
structure Endpoint where
  kind : String
  address : String
deriving DecidableEq, Repr

/-- Modelled from the spec and the uses in `forward.go`: the fields of the
`SSHTun` receiver that `forward` reads.  `local` and `remote` are named
`localEp` and `remoteEp` because `local` is a Lean keyword; only the
address string of `server` is used, so it is kept as a string. -/
structure SSHTun where
  forwardType : ForwardType
  localEp : Endpoint
  remoteEp : Endpoint
  serverAddr : String
deriving DecidableEq, Repr

/-- The `TunneledConnState` struct of `forward.go`, with `Error` as
`Option String`.  Field defaults are Go zero values, matching composite
literals that omit fields. -/
structure TunneledConnState where
  From : String
  Info : String := ""
  Error : Option String := none
  Ready : Bool := false
  Closed : Bool := false
deriving DecidableEq, Repr

/-- The two copy goroutines: `a` is the first `errGroup.Go` closure
(`io.Copy(toConn, fromConn)`, closes `toConn` on its clean path), `b` is
the second (`io.Copy(fromConn, toConn)`, closes `fromConn`). -/
inductive TaskId where
  | a
  | b
deriving DecidableEq, BEq, Repr

/-- One access to the shared captured `err` variable by one goroutine:
`write t` is goroutine `t`'s assignment `_, err = io.Copy(...)`, and
`read t` is its subsequent `if err != nil` check (the observed value is
also the one wrapped and returned). -/
inductive Ev where
  | write (t : TaskId)
  | read (t : TaskId)
deriving DecidableEq, Repr

/-- The six possible interleavings of the two goroutines' write/read
pairs (each goroutine writes before it reads; the two pairs interleave
freely). -/
def allScheds : List (List Ev) :=
  [[.write .a, .read .a, .write .b, .read .b],
   [.write .a, .write .b, .read .a, .read .b],
   [.write .a, .write .b, .read .b, .read .a],
   [.write .b, .write .a, .read .a, .read .b],
   [.write .b, .write .a, .read .b, .read .a],
   [.write .b, .read .b, .write .a, .read .a]]

/-- A schedule is valid when it is one of the six interleavings of the
two write-then-read pairs. -/
def validSched (s : List Ev) : Prop := s ∈ allScheds

instance (s : List Ev) : Decidable (validSched s) := by
  unfold validSched; infer_instance

/-- The copy outcome of each goroutine's `io.Copy` call: `rA` for
goroutine `a`, `rB` for goroutine `b` (`none` = clean end-of-stream). -/
def copyResult (rA rB : Option String) : TaskId → Option String
  | .a => rA
  | .b => rB

/-- The `fmt.Errorf` prefix each goroutine wraps a non-nil observed
error with, per forward type: lines 97-101 (goroutine `a`) and 110-114
(goroutine `b`) of `forward.go`.  For a forward type that is neither
`Local` nor `Remote` neither branch of the inner `if` fires and control
falls through to the close, hence `none`. -/
def copyLabel (ft : ForwardType) : TaskId → Option String
  | .a =>
    match ft with
    | .Local => some "failed copying bytes from remote to local: "
    | .Remote => some "failed copying bytes from local to remote: "
    | .other => none
  | .b =>
    match ft with
    | .Local => some "failed copying bytes from local to remote: "
    | .Remote => some "failed copying bytes from remote to local: "
    | .other => none

/-- State threaded through one run of the bidirectional pump (the code
between the two `errGroup.Go` calls and `errGroup.Wait()`):
the shared captured `err` slot, the goroutines' returned errors in
completion order (tagged with the goroutine), and how many times each
connection has been closed. -/
structure PumpState where
  shared : Option String
  rets : List (TaskId × Option String)
  toCloses : Nat
  fromCloses : Nat
deriving DecidableEq, Repr

/-- Goroutine `t` executes `return toConn.Close()` (for `a`) or
`return fromConn.Close()` (for `b`): the close is recorded and, per the
idempotent-close model, the returned error is `nil`. -/
def closeAndReturn (t : TaskId) (s : PumpState) : PumpState :=
  match t with
  | .a => { s with toCloses := s.toCloses + 1, rets := s.rets ++ [(.a, none)] }
  | .b => { s with fromCloses := s.fromCloses + 1, rets := s.rets ++ [(.b, none)] }

/-- One event of the pump: a `write` stores goroutine `t`'s own copy
outcome into the shared `err` slot; a `read` is the goroutine's
`if err != nil` check on the shared slot — on `some e` with a
recognized forward type it returns the wrapped error without closing
anything, otherwise it closes its connection and returns that close's
(nil) result. -/
def pumpStep (ft : ForwardType) (rA rB : Option String) (s : PumpState) : Ev → PumpState
  | .write t => { s with shared := copyResult rA rB t }
  | .read t =>
    match s.shared with
    | some e =>
      match copyLabel ft t with
      | some lbl => { s with rets := s.rets ++ [(t, some (lbl ++ e))] }
      | none => closeAndReturn t s
    | none => closeAndReturn t s

/-- Run the pump under a given interleaving.  The shared `err` slot
starts at the value left by the successful dial, i.e. `nil`. -/
def pumpRun (ft : ForwardType) (rA rB : Option String) (sched : List Ev) : PumpState :=
  sched.foldl (pumpStep ft rA rB) ⟨none, [], 0, 0⟩

/-- The error returned by `errGroup.Wait()`: the first non-nil error
among the goroutines' returns, in completion order. -/
def groupErr (s : PumpState) : Option String :=
  (s.rets.filterMap (fun x => x.2)).head?

/-- The error goroutine `t` returned, if it has completed. -/
def retOf (t : TaskId) (s : PumpState) : Option (Option String) :=
  (s.rets.find? (fun x => x.1 == t)).map (fun x => x.2)

/-- The order in which the goroutines complete (return) under a
schedule. -/
def completionOrder (sched : List Ev) : List TaskId :=
  sched.filterMap (fun e => match e with | .read t => some t | _ => none)

/-- The connection descriptor built at lines 80-81 of `forward.go`. -/
def connStr (tun : SSHTun) (fromAddr : String) : String :=
  fromAddr ++ " -(" ++ tun.localEp.kind ++ ")> " ++ tun.localEp.address ++
    " -(ssh)> " ++ tun.serverAddr ++ " -(" ++ tun.remoteEp.kind ++ ")> " ++
    tun.remoteEp.address

/-- The accepted-state notifications emitted at the top of `forward`
(lines 40-50): one state for `Local`, one for `Remote`, none for any
other forward type. -/
def acceptedStates (tun : SSHTun) (fromAddr : String) : List TunneledConnState :=
  match tun.forwardType with
  | .Local => [{ From := fromAddr, Info := "accepted " ++ tun.localEp.kind ++ " connection" }]
  | .Remote => [{ From := fromAddr, Info := "accepted " ++ tun.remoteEp.kind ++ " connection" }]
  | .other => []

/-- Everything observable about one call to `forward`: the notification
trace delivered to the observer in order, the number of times each
connection was closed, whether a dial was attempted, whether the pump
(the two copy goroutines) was started, and whether the dialed
connection variable `toConn` was ever assigned (it stays `nil` when no
dial branch runs). -/
structure ForwardResult where
  trace : List TunneledConnState
  fromCloses : Nat
  toCloses : Nat
  dialAttempted : Bool
  pumpRan : Bool
  toConnSet : Bool
deriving DecidableEq, Repr

/-- The body of `(tun *SSHTun).forward`, parameterized by its external
inputs: the accepted connection's remote address `fromAddr`, the dial
outcome `dialRes` (`none` = success; only consulted when a dial branch
actually runs), the two copy outcomes `rA`/`rB`, the interleaving
`sched` of the goroutines' shared-`err` accesses, and whether
`tun.ctx.Done()` is already closed at the post-wait `select`
(`ctxDone`). -/
def forward (tun : SSHTun) (fromAddr : String) (dialRes : Option String)
    (rA rB : Option String) (sched : List Ev) (ctxDone : Bool) : ForwardResult :=
  match tun.forwardType, dialRes with
  | .Local, some cause =>
    { trace := acceptedStates tun fromAddr ++
        [{ From := fromAddr,
           Error := some ("remote dial " ++ tun.remoteEp.kind ++ " to " ++
             tun.remoteEp.address ++ " failed: " ++ cause) }],
      fromCloses := 1, toCloses := 0,
      dialAttempted := true, pumpRan := false, toConnSet := false }
  | .Remote, some cause =>
    { trace := acceptedStates tun fromAddr ++
        [{ From := fromAddr,
           Error := some ("local dial " ++ tun.localEp.kind ++ " to " ++
             tun.localEp.address ++ " failed: " ++ cause) }],
      fromCloses := 1, toCloses := 0,
      dialAttempted := true, pumpRan := false, toConnSet := false }
  | _, _ =>
    let ds := connStr tun fromAddr
    let p := pumpRun tun.forwardType rA rB sched
    let errStates : List TunneledConnState :=
      if ctxDone then []
      else
        match groupErr p with
        | some e => [{ From := fromAddr, Error := some e, Closed := true }]
        | none => []
    { trace := acceptedStates tun fromAddr ++
        [{ From := fromAddr, Info := "connection established: " ++ ds,
           Ready := true, Closed := false }] ++
        errStates ++
        [{ From := fromAddr, Info := "connection closed: " ++ ds,
           Ready := false, Closed := true }],
      fromCloses := p.fromCloses, toCloses := p.toCloses,
      dialAttempted := tun.forwardType matches .Local || tun.forwardType matches .Remote,
      pumpRan := true,
      toConnSet := tun.forwardType matches .Local || tun.forwardType matches .Remote }

/-- Classification of an emitted state by its flag pattern, following
the spec's state-machine summary table.  The five named states have
pairwise distinct `(Ready, Closed, Error present)` patterns. -/
inductive StateClass where
  | accepted
  | dialFailed
  | established
  | closedWithError
  | closedFinal
deriving DecidableEq, Repr

/-- Classify a notification by its flags. -/
def classify (s : TunneledConnState) : Option StateClass :=
  match s.Ready, s.Closed, s.Error with
  | false, false, none => some .accepted
  | false, false, some _ => some .dialFailed
  | true, false, none => some .established
  | false, true, some _ => some .closedWithError
  | false, true, none => some .closedFinal
  | _, _, _ => none

/-- Substring test used to state claims about error-message wording. -/
def containsSub (needle hay : String) : Bool :=
  (List.range (hay.length + 1)).any (fun i => needle.toList.isPrefixOf (hay.toList.drop i))

/-- A sample configuration used by concrete witnesses and
counterexamples. -/
def tunL : SSHTun :=
  { forwardType := .Local,
    localEp := { kind := "tcp", address := "127.0.0.1:8000" },
    remoteEp := { kind := "tcp", address := "10.0.0.1:9999" },
    serverAddr := "ssh.example.com:22" }

/-- The race-free interleaving: each goroutine's nil-check reads the
value its own copy just assigned. -/
def schedSeq : List Ev := [.write .a, .read .a, .write .b, .read .b]

/-- A racy interleaving: both goroutines assign the shared `err` before
either performs its nil-check, so both checks observe goroutine `b`'s
outcome. -/
def schedRace : List Ev := [.write .a, .write .b, .read .a, .read .b]

/-- Helper: an element placed as the final singleton of an append chain
is a member of the list. -/
theorem mem_append_last_singleton (x : α) (A E : List α) :
    x ∈ A ++ E ++ [x] := by
  simp

/-- Helper: an element placed as a middle singleton of an append chain
is a member of the list. -/
theorem mem_append_middle_singleton (x : α) (A E B : List α) :
    x ∈ A ++ [x] ++ E ++ B := by
  simp

/-- C1: for every call to `forward` with a recognized forward type, the
observer receives notifications in exactly one of the orders
`[Accepted, Established, ClosedFinal]`,
`[Accepted, Established, ClosedWithError, ClosedFinal]`, or
`[Accepted, DialFailed]` — no state skipped, none repeated, `Ready`
true only in the established state and `Closed` true only in the final
state(s), as witnessed by the flag-pattern classification of the
trace. -/
theorem c1_notification_order (tun : SSHTun) (fromAddr : String)
    (dialRes rA rB : Option String) (sched : List Ev) (ctxDone : Bool)
    (hft : tun.forwardType = .Local ∨ tun.forwardType = .Remote) :
    (forward tun fromAddr dialRes rA rB sched ctxDone).trace.map classify ∈
      [[some StateClass.accepted, some StateClass.established, some StateClass.closedFinal],
       [some StateClass.accepted, some StateClass.established,
        some StateClass.closedWithError, some StateClass.closedFinal],
       [some StateClass.accepted, some StateClass.dialFailed]] := by
  obtain ⟨ft, le, re, sv⟩ := tun
  rcases hft with h | h <;> subst h
  · cases dialRes with
    | some cause => simp [forward, acceptedStates, classify]
    | none =>
      cases ctxDone with
      | true => simp [forward, acceptedStates, classify]
      | false =>
        cases hge : groupErr (pumpRun ForwardType.Local rA rB sched) <;>
          simp [forward, acceptedStates, classify, hge]
  · cases dialRes with
    | some cause => simp [forward, acceptedStates, classify]
    | none =>
      cases ctxDone with
      | true => simp [forward, acceptedStates, classify]
      | false =>
        cases hge : groupErr (pumpRun ForwardType.Remote rA rB sched) <;>
          simp [forward, acceptedStates, classify, hge]

/-- Witness for C1 at a concrete input. -/
theorem c1_notification_order_witness :
    (tunL.forwardType = .Local ∨ tunL.forwardType = .Remote) ∧
    (forward tunL "1.2.3.4:5" none none (some "x") schedSeq false).trace.map classify ∈
      [[some StateClass.accepted, some StateClass.established, some StateClass.closedFinal],
       [some StateClass.accepted, some StateClass.established,
        some StateClass.closedWithError, some StateClass.closedFinal],
       [some StateClass.accepted, some StateClass.dialFailed]] :=
  ⟨Or.inl rfl,
   c1_notification_order tunL "1.2.3.4:5" none none (some "x") schedSeq false (Or.inl rfl)⟩

/-- C2 counterexample: under Local forwarding, when the accepted→dialed
copy fails (error "boom") and the goroutine observes its own outcome,
that goroutine returns the wrapped error without ever closing the
dialed connection, so a finishing task does not always close the
connection the other task reads from. -/
theorem c2_counterexample :
    retOf .a (pumpRun .Local (some "boom") none schedSeq) =
      some (some "failed copying bytes from remote to local: boom") ∧
    (pumpRun .Local (some "boom") none schedSeq).toCloses = 0 :=
  ⟨rfl, rfl⟩

/-- C2 amended: a copy goroutine closes the connection the other
goroutine reads from exactly when it returns without an error (its
`if err != nil` check observed `nil`); when it observes a non-nil
error it returns the wrapped error without performing any close. -/
theorem c2_close_iff_clean_return (ft : ForwardType) (rA rB : Option String)
    (sched : List Ev) (hs : validSched sched)
    (hft : ft = .Local ∨ ft = .Remote) :
    ((pumpRun ft rA rB sched).toCloses =
      if retOf .a (pumpRun ft rA rB sched) = some none then 1 else 0) ∧
    ((pumpRun ft rA rB sched).fromCloses =
      if retOf .b (pumpRun ft rA rB sched) = some none then 1 else 0) := by
  simp only [validSched, allScheds, List.mem_cons, List.not_mem_nil, or_false] at hs
  rcases hft with rfl | rfl <;>
    rcases hs with rfl | rfl | rfl | rfl | rfl | rfl <;>
    cases rA <;> cases rB <;>
    exact ⟨rfl, rfl⟩

/-- Witness for C2's amended theorem at a concrete input. -/
theorem c2_close_iff_clean_return_witness :
    validSched schedSeq ∧
    (ForwardType.Local = .Local ∨ ForwardType.Local = .Remote) ∧
    (((pumpRun .Local (some "boom") none schedSeq).toCloses =
      if retOf .a (pumpRun .Local (some "boom") none schedSeq) = some none then 1 else 0) ∧
     ((pumpRun .Local (some "boom") none schedSeq).fromCloses =
      if retOf .b (pumpRun .Local (some "boom") none schedSeq) = some none then 1 else 0)) :=
  ⟨by decide, Or.inl rfl,
   c2_close_iff_clean_return .Local (some "boom") none schedSeq (by decide) (Or.inl rfl)⟩

/-- C3 counterexample: a call to `forward` in which the dial succeeds
but the accepted→dialed copy fails returns with the dialed connection
never closed, so it is not true that both connections are closed by
the time the call returns regardless of which direction erred. -/
theorem c3_counterexample :
    (forward tunL "1.2.3.4:5" none (some "boom") none schedSeq false).pumpRan = true ∧
    (forward tunL "1.2.3.4:5" none (some "boom") none schedSeq false).toCloses = 0 :=
  ⟨rfl, rfl⟩

/-- C3 amended: when the dial succeeds and both copy directions end in
clean end-of-stream, both the accepted and the dialed connection have
been closed exactly once by the time the call returns (under every
interleaving); when a copy direction errors, the connection its
goroutine was responsible for closing is left unclosed. -/
theorem c3_both_closed_on_clean_eof (tun : SSHTun) (fromAddr : String)
    (sched : List Ev) (ctxDone : Bool) (hs : validSched sched)
    (hft : tun.forwardType = .Local ∨ tun.forwardType = .Remote) :
    (forward tun fromAddr none none none sched ctxDone).fromCloses = 1 ∧
    (forward tun fromAddr none none none sched ctxDone).toCloses = 1 := by
  obtain ⟨ft, le, re, sv⟩ := tun
  simp only [validSched, allScheds, List.mem_cons, List.not_mem_nil, or_false] at hs
  rcases hft with rfl | rfl <;>
    rcases hs with rfl | rfl | rfl | rfl | rfl | rfl <;>
    simp [forward, pumpRun, pumpStep, copyResult, copyLabel, closeAndReturn]

/-- Witness for C3's amended theorem at a concrete input. -/
theorem c3_both_closed_on_clean_eof_witness :
    validSched schedSeq ∧
    (tunL.forwardType = .Local ∨ tunL.forwardType = .Remote) ∧
    ((forward tunL "1.2.3.4:5" none none none schedSeq false).fromCloses = 1 ∧
     (forward tunL "1.2.3.4:5" none none none schedSeq false).toCloses = 1) :=
  ⟨by decide, Or.inl rfl,
   c3_both_closed_on_clean_eof tunL "1.2.3.4:5" schedSeq false (by decide) (Or.inl rfl)⟩

/-- C4: on dial failure the emitted trace is exactly the accepted state
followed by one terminal state whose error carries the
direction-specific message ("remote dial <kind> to <address> failed:
<cause>" under Local forwarding, "local dial <kind> to <address>
failed: <cause>" under Remote forwarding); the accepted connection is
closed, no copy goroutine is started, and no established or separate
closed state is emitted (`Ready` and `Closed` are false in every
emitted state). -/
theorem c4_dial_failure (tun : SSHTun) (fromAddr cause : String)
    (rA rB : Option String) (sched : List Ev) (ctxDone : Bool)
    (hft : tun.forwardType = .Local ∨ tun.forwardType = .Remote) :
    (tun.forwardType = .Local →
      (forward tun fromAddr (some cause) rA rB sched ctxDone).trace =
        [{ From := fromAddr, Info := "accepted " ++ tun.localEp.kind ++ " connection" },
         { From := fromAddr,
           Error := some ("remote dial " ++ tun.remoteEp.kind ++ " to " ++
             tun.remoteEp.address ++ " failed: " ++ cause) }]) ∧
    (tun.forwardType = .Remote →
      (forward tun fromAddr (some cause) rA rB sched ctxDone).trace =
        [{ From := fromAddr, Info := "accepted " ++ tun.remoteEp.kind ++ " connection" },
         { From := fromAddr,
           Error := some ("local dial " ++ tun.localEp.kind ++ " to " ++
             tun.localEp.address ++ " failed: " ++ cause) }]) ∧
    (forward tun fromAddr (some cause) rA rB sched ctxDone).fromCloses = 1 ∧
    (forward tun fromAddr (some cause) rA rB sched ctxDone).toCloses = 0 ∧
    (forward tun fromAddr (some cause) rA rB sched ctxDone).pumpRan = false ∧
    (∀ s ∈ (forward tun fromAddr (some cause) rA rB sched ctxDone).trace,
      s.Ready = false ∧ s.Closed = false) := by
  obtain ⟨ft, le, re, sv⟩ := tun
  rcases hft with rfl | rfl
  · refine ⟨?_, ?_, rfl, rfl, rfl, fun s hs => ?_⟩
    · exact fun _ => rfl
    · intro h
      simp at h
    · simp only [forward, acceptedStates, List.singleton_append, List.mem_cons,
        List.not_mem_nil, or_false] at hs
      rcases hs with rfl | rfl <;> exact ⟨rfl, rfl⟩
  · refine ⟨?_, ?_, rfl, rfl, rfl, fun s hs => ?_⟩
    · intro h
      simp at h
    · exact fun _ => rfl
    · simp only [forward, acceptedStates, List.singleton_append, List.mem_cons,
        List.not_mem_nil, or_false] at hs
      rcases hs with rfl | rfl <;> exact ⟨rfl, rfl⟩

/-- Witness for C4 at a concrete input. -/
theorem c4_dial_failure_witness :
    (tunL.forwardType = .Local ∨ tunL.forwardType = .Remote) ∧
    (forward tunL "1.2.3.4:5" (some "connection refused") none none [] false).trace =
      [{ From := "1.2.3.4:5", Info := "accepted tcp connection" },
       { From := "1.2.3.4:5",
         Error := some "remote dial tcp to 10.0.0.1:9999 failed: connection refused" }] :=
  ⟨Or.inl rfl,
   ((c4_dial_failure tunL "1.2.3.4:5" "connection refused" none none [] false
        (Or.inl rfl)).1 rfl).trans (by decide)⟩

/-- C5: evaluating `forward` at a failing input for the claim: under
Local forwarding with the tunnel context not done, the accepted→dialed
copy fails with error "boom" while the other direction ends cleanly,
yet under the interleaving in which both goroutines assign the shared
captured `err` before either performs its nil check, no error state is
ever emitted — the trace is `[Accepted, Established, ClosedFinal]` —
because the clean goroutine's `nil` assignment overwrites "boom"
before it is read. -/
theorem c5_error_lost_by_race :
    (forward tunL "1.2.3.4:5" none (some "boom") none schedRace false).trace.map
        TunneledConnState.Error = [none, none, none] ∧
    (forward tunL "1.2.3.4:5" none (some "boom") none schedRace false).trace.map classify =
      [some StateClass.accepted, some StateClass.established, some StateClass.closedFinal] := by
  decide

/-- C6 counterexample: under Local forwarding, a copy error `x` in the
direction that reads from the dialed (remote) connection and writes to
the accepted (local) connection (goroutine `b`, observing its own
outcome) is surfaced with the message
"failed copying bytes from local to remote: x", which does not contain
"failed copying bytes from remote to local" as the claim requires. -/
theorem c6_counterexample :
    (forward tunL "1.2.3.4:5" none none (some "x") schedSeq false).trace.filterMap
        TunneledConnState.Error =
      ["failed copying bytes from local to remote: x"] ∧
    containsSub "failed copying bytes from remote to local"
      "failed copying bytes from local to remote: x" = false := by
  decide

/-- C6 amended: the code's direction labels are the reverse of the data
flow.  Under the interleaving in which each goroutine observes its own
copy outcome: under Local forwarding an error in the dialed→accepted
direction (goroutine `b`) is labeled "failed copying bytes from local
to remote" and an error in the accepted→dialed direction (goroutine
`a`) is labeled "failed copying bytes from remote to local"; under
Remote forwarding the labels swap; and a clean end-of-stream in both
directions produces no error. -/
theorem c6_copy_error_labels (e : String) :
    retOf .b (pumpRun .Local none (some e) schedSeq) =
      some (some ("failed copying bytes from local to remote: " ++ e)) ∧
    retOf .a (pumpRun .Local (some e) none schedSeq) =
      some (some ("failed copying bytes from remote to local: " ++ e)) ∧
    retOf .b (pumpRun .Remote none (some e) schedSeq) =
      some (some ("failed copying bytes from remote to local: " ++ e)) ∧
    retOf .a (pumpRun .Remote (some e) none schedSeq) =
      some (some ("failed copying bytes from local to remote: " ++ e)) ∧
    (pumpRun .Local none none schedSeq).rets = [(.a, none), (.b, none)] ∧
    (pumpRun .Remote none none schedSeq).rets = [(.a, none), (.b, none)] :=
  ⟨rfl, rfl, rfl, rfl, rfl, rfl⟩

/-- C7 counterexample: a call to `forward` in which the dial fails
returns after emitting only states with `Closed = false`, so a
notification with `closed=true` is not emitted unconditionally before
every return. -/
theorem c7_counterexample :
    (forward tunL "1.2.3.4:5" (some "connection refused") none none [] false).trace.map
        TunneledConnState.Closed = [false, false] := by
  decide

/-- C7 amended: on every call in which the dial succeeds a notification
with `closed=true` is emitted before the call returns; on a dial
failure no `closed=true` notification is emitted at all (the terminal
state carries the error with `Closed = false`), although the accepted
connection is still closed. -/
theorem c7_closed_emitted_unless_dial_fails (tun : SSHTun) (fromAddr : String)
    (dialRes rA rB : Option String) (sched : List Ev) (ctxDone : Bool)
    (hft : tun.forwardType = .Local ∨ tun.forwardType = .Remote) :
    (dialRes = none →
      ∃ s ∈ (forward tun fromAddr dialRes rA rB sched ctxDone).trace, s.Closed = true) ∧
    (∀ cause, dialRes = some cause →
      (∀ s ∈ (forward tun fromAddr dialRes rA rB sched ctxDone).trace, s.Closed = false) ∧
      (forward tun fromAddr dialRes rA rB sched ctxDone).fromCloses = 1) := by
  obtain ⟨ft, le, re, sv⟩ := tun
  rcases hft with rfl | rfl <;> refine ⟨?_, ?_⟩
  · rintro rfl
    exact ⟨_, mem_append_last_singleton _ _ _, rfl⟩
  · rintro cause rfl
    refine ⟨fun s hs => ?_, rfl⟩
    simp only [forward, acceptedStates, List.singleton_append, List.mem_cons,
      List.not_mem_nil, or_false] at hs
    rcases hs with rfl | rfl <;> rfl
  · rintro rfl
    exact ⟨_, mem_append_last_singleton _ _ _, rfl⟩
  · rintro cause rfl
    refine ⟨fun s hs => ?_, rfl⟩
    simp only [forward, acceptedStates, List.singleton_append, List.mem_cons,
      List.not_mem_nil, or_false] at hs
    rcases hs with rfl | rfl <;> rfl

/-- Witness for C7's amended theorem at a concrete input. -/
theorem c7_closed_emitted_unless_dial_fails_witness :
    (tunL.forwardType = .Local ∨ tunL.forwardType = .Remote) ∧
    ((none = (none : Option String) →
      ∃ s ∈ (forward tunL "1.2.3.4:5" none none none schedSeq false).trace, s.Closed = true) ∧
     (∀ cause, (none : Option String) = some cause →
      (∀ s ∈ (forward tunL "1.2.3.4:5" none none none schedSeq false).trace, s.Closed = false) ∧
      (forward tunL "1.2.3.4:5" none none none schedSeq false).fromCloses = 1)) :=
  ⟨Or.inl rfl,
   c7_closed_emitted_unless_dial_fails tunL "1.2.3.4:5" none none none schedSeq false (Or.inl rfl)⟩

/-- C8: on dial success the established state's info is "connection
established: <descriptor>" with the descriptor of the shape
`from -(localKind)> localAddr -(ssh)> serverAddr -(remoteKind)> remoteAddr`
(the tunnel label in the source is "ssh"), and the final closed state's
info is "connection closed: <descriptor>" with the character-for-character
identical descriptor. -/
theorem c8_descriptor_correlated (tun : SSHTun) (fromAddr : String)
    (rA rB : Option String) (sched : List Ev) (ctxDone : Bool)
    (hft : tun.forwardType = .Local ∨ tun.forwardType = .Remote) :
    ∃ d, d = fromAddr ++ " -(" ++ tun.localEp.kind ++ ")> " ++ tun.localEp.address ++
        " -(ssh)> " ++ tun.serverAddr ++ " -(" ++ tun.remoteEp.kind ++ ")> " ++
        tun.remoteEp.address ∧
      (∃ s ∈ (forward tun fromAddr none rA rB sched ctxDone).trace,
        classify s = some .established ∧ s.Info = "connection established: " ++ d) ∧
      (∃ s ∈ (forward tun fromAddr none rA rB sched ctxDone).trace,
        classify s = some .closedFinal ∧ s.Info = "connection closed: " ++ d) := by
  obtain ⟨ft, le, re, sv⟩ := tun
  rcases hft with rfl | rfl <;>
    exact ⟨_, rfl,
      ⟨_, mem_append_middle_singleton _ _ _ _, rfl, rfl⟩,
      ⟨_, mem_append_last_singleton _ _ _, rfl, rfl⟩⟩

/-- Witness for C8 at a concrete input. -/
theorem c8_descriptor_correlated_witness :
    (tunL.forwardType = .Local ∨ tunL.forwardType = .Remote) ∧
    ∃ d, d = "1.2.3.4:5" ++ " -(" ++ tunL.localEp.kind ++ ")> " ++ tunL.localEp.address ++
        " -(ssh)> " ++ tunL.serverAddr ++ " -(" ++ tunL.remoteEp.kind ++ ")> " ++
        tunL.remoteEp.address ∧
      (∃ s ∈ (forward tunL "1.2.3.4:5" none none none schedSeq false).trace,
        classify s = some .established ∧ s.Info = "connection established: " ++ d) ∧
      (∃ s ∈ (forward tunL "1.2.3.4:5" none none none schedSeq false).trace,
        classify s = some .closedFinal ∧ s.Info = "connection closed: " ++ d) :=
  ⟨Or.inl rfl,
   c8_descriptor_correlated tunL "1.2.3.4:5" none none schedSeq false (Or.inl rfl)⟩

/-- C9: the code shares the captured variable `err` between both copy
goroutines (each executes `_, err = io.Copy(...)` on the same variable)
without any synchronization, so the error surfaced by `errGroup.Wait()`
is not deterministic given the order in which the two copies finish:
with identical copy outcomes and identical completion order, the
race-free interleaving surfaces the copy error while the interleaving
in which both assignments precede both nil-checks surfaces nothing. -/
theorem c9_surfaced_error_depends_on_interleaving :
    validSched schedSeq ∧ validSched schedRace ∧
    completionOrder schedSeq = completionOrder schedRace ∧
    groupErr (pumpRun .Local (some "boom") none schedSeq) =
      some "failed copying bytes from remote to local: boom" ∧
    groupErr (pumpRun .Local (some "boom") none schedRace) = none := by
  decide

/-- C10: for a forward type other than `Local` and `Remote`, `forward`
emits no accepted notification and attempts no dial, yet still emits an
established state and runs the pump with the dialed-connection variable
`toConn` never assigned (nil). -/
theorem c10_invalid_forward_type (le re : Endpoint) (sv fromAddr : String)
    (dialRes rA rB : Option String) (sched : List Ev) (ctxDone : Bool) :
    (∀ s ∈ (forward ⟨.other, le, re, sv⟩ fromAddr dialRes rA rB sched ctxDone).trace,
      classify s ≠ some .accepted) ∧
    (forward ⟨.other, le, re, sv⟩ fromAddr dialRes rA rB sched ctxDone).dialAttempted = false ∧
    (∃ s ∈ (forward ⟨.other, le, re, sv⟩ fromAddr dialRes rA rB sched ctxDone).trace,
      classify s = some .established) ∧
    (forward ⟨.other, le, re, sv⟩ fromAddr dialRes rA rB sched ctxDone).pumpRan = true ∧
    (forward ⟨.other, le, re, sv⟩ fromAddr dialRes rA rB sched ctxDone).toConnSet = false := by
  cases dialRes <;> cases ctxDone <;>
    cases hge : groupErr (pumpRun ForwardType.other rA rB sched) <;>
    refine ⟨fun s hs => ?_, rfl, ⟨_, mem_append_middle_singleton _ _ _ _, rfl⟩, rfl, rfl⟩ <;>
    simp [forward, acceptedStates, hge] at hs <;>
    rcases hs with rfl | rfl | rfl <;> simp [classify]

end Sshtun
